import Mathlib

/-!
Shallow embedding of the sockolate `Socket` class (src/src/index.ts) for
verification of its connection-lifecycle behaviour.

Modelling conventions:
- JS numbers (delays, timestamps) are rationals; retry counts and buffer
  bounds are naturals.
- The named timer store (the private `#timers` object) is a record of four
  optional slots; an armed slot stores the delay that the source passes to
  setTimeout / setInterval, a cleared slot is none.
- The transport handle (`#ws`) is an optional record of the observable
  WebSocket fields the getters read.
- Operations that emit events or write to the wire return, next to the new
  state, the list of emitted event tags and the list of strings written to
  the transport, in order.
- Callbacks installed with onOpen/onData/... run in their own scheduler
  turns and are not part of the synchronous state transitions modelled here.
-/

/-- Observable fields of the underlying WebSocket handle (`#ws`). -/
structure WS where
  readyState : Nat
  url : String
  protocol : String
  extensions : String
deriving DecidableEq

/-- WebSocket.CONNECTING readyState constant. -/
def wsCONNECTING : Nat := 0
/-- WebSocket.OPEN readyState constant. -/
def wsOPEN : Nat := 1
/-- WebSocket.CLOSING readyState constant. -/
def wsCLOSING : Nat := 2
/-- WebSocket.CLOSED readyState constant. -/
def wsCLOSED : Nat := 3

/-- The fixed ping wire literal from src/src/index.ts line 15. -/
def PingContent : String := "\x7b\"type\":\"ping\"\x7d"

/-- The fixed pong wire literal from src/src/index.ts line 16. -/
def PongContent : String := "\x7b\"type\":\"pong\"\x7d"

/-- `buffer` option (src/interfaces.ts BufferConfig). -/
structure BufferConfig where
  max : Nat
  min : Nat
deriving DecidableEq

/-- `ping` option (src/interfaces.ts PingConfig). -/
structure PingConfig where
  heartbeat : ℚ
  strict : Bool
  timeout : ℚ
deriving DecidableEq

/-- `retry` option (src/interfaces.ts RetryConfig). -/
structure RetryConfig where
  amount : Nat
  delayFactor : ℚ
  maxDelay : ℚ
  minUpTime : ℚ
  onAbort : Bool
  startDelay : ℚ
deriving DecidableEq

/-- Merged socket configuration (src/interfaces.ts SocketConfig).
`buffer: false` is modelled as none. The `binary` mode is a plain string
tag and `protocol` negotiation is outside the claims' scope. -/
structure SocketConfig where
  binary : String
  buffer : Option BufferConfig
  immediate : Bool
  ping : PingConfig
  retry : RetryConfig
  timeout : ℚ
deriving DecidableEq

/-- `DefaultOptions` from src/src/index.ts lines 18-39. -/
def DefaultOptions : SocketConfig :=
  { binary := "blob"
    buffer := some { max := 32, min := 0 }
    immediate := false
    ping := { heartbeat := 5000, strict := true, timeout := 5000 }
    retry := { amount := 0, delayFactor := 3/2, maxDelay := 30000,
               minUpTime := 500, onAbort := false, startDelay := 1000 }
    timeout := 30000 }

/-- Names of the single-instance timers held in `#timers` (src lines 7-13). -/
inductive TimerName where
  | heartbeat
  | keepAlive
  | ping
  | retry
deriving DecidableEq

/-- The named timer store `#timers`: one optional slot per name; an armed
slot records the delay handed to setTimeout / setInterval. -/
structure Timers where
  heartbeat : Option ℚ
  keepAlive : Option ℚ
  ping : Option ℚ
  retry : Option ℚ
deriving DecidableEq

/-- All four timer slots cleared. -/
def noTimers : Timers := { heartbeat := none, keepAlive := none, ping := none, retry := none }

/-- Read a timer slot by name. -/
def Timers.get (t : Timers) : TimerName → Option ℚ
  | TimerName.heartbeat => t.heartbeat
  | TimerName.keepAlive => t.keepAlive
  | TimerName.ping => t.ping
  | TimerName.retry => t.retry

/-- Write a timer slot by name. -/
def Timers.set (t : Timers) : TimerName → Option ℚ → Timers
  | TimerName.heartbeat, v => { t with heartbeat := v }
  | TimerName.keepAlive, v => { t with keepAlive := v }
  | TimerName.ping, v => { t with ping := v }
  | TimerName.retry, v => { t with retry := v }

/-- Event tags the emitter can fire (src/types.ts SocketEvent). -/
inductive SockEvent where
  | preConnectEv
  | openEv
  | dataEv
  | sendEv
  | closeEv
  | errorEv
  | abortEv
  | reconnectEv
  | pingEv
  | pongEv
deriving DecidableEq

/-- The optional `reason` argument of `abort` (a string, an Error value, or
absent), as distinguished by the `isError` test on src line 222. -/
inductive AbortReason where
  | noReason
  | str (s : String)
  | err (msg : String)
deriving DecidableEq

/-- `isError(reason)` from src line 222. -/
def AbortReason.isErr : AbortReason → Bool
  | AbortReason.err _ => true
  | _ => false

/-- Model of `JSON.stringify` (the `stringify` default parser, src line 61)
restricted to the string payloads used in this development. -/
def stringify (s : String) : String := "\"" ++ s ++ "\""

/-- The mutable private state of a `Socket` instance (src lines 45-72).
The `#controller` / `#abortListener` pair is modelled as a single presence
flag, since both are created together in `connect` and removed together in
`disconnect`. -/
structure SocketState where
  opts : SocketConfig
  closeCall : Bool
  connected : Bool
  controller : Bool
  disconnectCall : Bool
  heartBeatRunning : Bool
  inBuffer : List String
  outBuffer : List String
  parser : String → String
  paused : Bool
  pingStart : Bool
  prevTimeStamp : ℚ
  retries : Nat
  retryCall : Bool
  timers : Timers
  upTime : ℚ
  ws : Option WS

namespace Socket

/-- Constructor-initialised state (src lines 74-91, before any `connect`). -/
def init (opts : SocketConfig) : SocketState :=
  { opts := opts
    closeCall := false
    connected := false
    controller := false
    disconnectCall := false
    heartBeatRunning := false
    inBuffer := []
    outBuffer := []
    parser := stringify
    paused := false
    pingStart := false
    prevTimeStamp := 0
    retries := 0
    retryCall := false
    timers := noTimers
    upTime := 0
    ws := none }

/-- `get active()` from src lines 482-484. -/
def active (s : SocketState) : Bool := s.connected && !s.paused

/-- `get beating()` from src lines 489-491. -/
def beating (s : SocketState) : Bool := s.heartBeatRunning

/-- `get extensions()` from src lines 522-524. -/
def extensions (s : SocketState) : String := (s.ws.map WS.extensions).getD ""

/-- `get protocol()` from src lines 537-539. -/
def protocol (s : SocketState) : String := (s.ws.map WS.protocol).getD ""

/-- `get readyState()` from src lines 544-546. -/
def readyState (s : SocketState) : Nat := (s.ws.map WS.readyState).getD wsCLOSED

/-- `get retries()` from src lines 551-553. -/
def retriesGetter (s : SocketState) : Nat := s.retries

/-- `get url()` from src lines 568-570. -/
def url (s : SocketState) : String := (s.ws.map WS.url).getD ""

/-- `clearTimer` from src lines 111-116 (clearing an already-empty slot is
the identity, matching the truthiness guard in the source). -/
def clearTimer (s : SocketState) (t : TimerName) : SocketState :=
  { s with timers := s.timers.set t none }

/-- `flushTimers` from src lines 121-125: clears every stored timer. -/
def flushTimers (s : SocketState) : SocketState :=
  { s with timers := noTimers }

/-- `cleanup` from src lines 96-104: flush all timers; when the cleanup was
reconnection-driven (`#retryCall`) only drop that flag, otherwise clear both
buffers and reset the retry counter. -/
def cleanup (s : SocketState) : SocketState :=
  let s1 := flushTimers s
  if s1.retryCall then { s1 with retryCall := false }
  else { s1 with outBuffer := [], inBuffer := [], retries := 0 }

/-- `timestamp` from src lines 207-211: accumulate elapsed time into
`#upTime`; the returned next timestamp is `now`. -/
def timestamp (s : SocketState) (now : ℚ) : SocketState :=
  { s with upTime := s.upTime + (now - s.prevTimeStamp) }

/-- `get uptime()` from src lines 558-563: while active, fold the elapsed
time into the total and advance the checkpoint; return the total. -/
def uptime (s : SocketState) (now : ℚ) : ℚ × SocketState :=
  if active s then
    let s1 := timestamp s now
    let s2 := { s1 with prevTimeStamp := now }
    (s2.upTime, s2)
  else (s.upTime, s)

/-- `disconnect` from src lines 259-270: no-op without a transport;
otherwise mark the closure manual, drop the transport, remove the
cancellation token together with its listener, and run `cleanup`. -/
def disconnect (s : SocketState) : SocketState :=
  match s.ws with
  | none => s
  | some _ =>
      cleanup { s with disconnectCall := true, connected := false,
                       ws := none, controller := false }

/-- `reconnect` from src lines 398-415: bail out when a retry timer is
already pending or the retry budget is exhausted; otherwise increment the
retry count, flag the upcoming closure as reconnection-driven, and arm the
retry timer with delay
min(startDelay * ((retries + 1) * delayFactor), maxDelay), where `retries`
has already been incremented. -/
def reconnect (s : SocketState) : SocketState :=
  let retry := s.opts.retry
  if s.timers.retry.isSome || decide (s.retries ≥ retry.amount) then s
  else
    let retries := s.retries + 1
    { s with
      retries := retries
      retryCall := true
      timers := s.timers.set TimerName.retry
        (some (min (retry.startDelay * (((retries : ℚ) + 1) * retry.delayFactor)) retry.maxDelay)) }

/-- `abort` from src lines 218-225: fire the cancellation token if present
(its listener closes the current transport, src lines 238-241); then either
hand over to `reconnect` (when `retry.onAbort` is set) or emit `error` for
an Error reason and `abort` otherwise. The third component lists the wire
messages written by the call. -/
def abort (s : SocketState) (reason : AbortReason) : SocketState × List SockEvent × List String :=
  let s1 := if s.controller
            then { s with ws := s.ws.map (fun w => { w with readyState := wsCLOSING }) }
            else s
  if s1.opts.retry.onAbort then (reconnect s1, [], [])
  else (s1, [if reason.isErr then SockEvent.errorEv else SockEvent.abortEv], [])

/-- `pause` from src lines 373-377: set the paused flag and cancel the
single-shot ping and heartbeat timers. -/
def pause (s : SocketState) : SocketState :=
  clearTimer (clearTimer { s with paused := true } TimerName.ping) TimerName.heartbeat

/-- `ping` from src lines 382-393: always clear any pending ping timeout
first; then, when active with a transport, mark a ping outstanding, emit
`ping`, write the ping literal, and arm the ping timeout. -/
def ping (s : SocketState) : SocketState × List SockEvent × List String :=
  let s1 := clearTimer s TimerName.ping
  if active s1 && s1.ws.isSome then
    ({ s1 with pingStart := true,
               timers := s1.timers.set TimerName.ping (some s1.opts.ping.timeout) },
     [SockEvent.pingEv], [PingContent])
  else (s1, [], [])

/-- `syncInBuffer` from src lines 174-184: when buffering is enabled and
the inbound backlog strictly exceeds `min`, replay every buffered message
as a `data` event and empty the inbound queue. -/
def syncInBuffer (s : SocketState) : SocketState × List SockEvent :=
  match s.opts.buffer with
  | none => (s, [])
  | some bo =>
      if s.inBuffer.length ≠ 0 ∧ s.inBuffer.length > bo.min then
        ({ s with inBuffer := [] }, s.inBuffer.map (fun _ => SockEvent.dataEv))
      else (s, [])

/-- `syncOutBuffer` from src lines 189-200: with a transport present,
buffering enabled and at least `min` queued items, write the first
min(max, length) parsed items (emitting `send` for each) and empty the
outbound queue. -/
def syncOutBuffer (s : SocketState) : SocketState × List SockEvent × List String :=
  match s.ws with
  | none => (s, [], [])
  | some _ =>
      match s.opts.buffer with
      | none => (s, [], [])
      | some bo =>
          if s.outBuffer.length ≠ 0 ∧ s.outBuffer.length ≥ bo.min then
            let sent := (s.outBuffer.take (min bo.max s.outBuffer.length)).map s.parser
            ({ s with outBuffer := [] }, sent.map (fun _ => SockEvent.sendEv), sent)
          else (s, [], [])

/-- `sync` from src lines 163-169: drain both buffers, drop the
reconnection flag and reset the uptime checkpoint to the current time. -/
def sync (s : SocketState) (now : ℚ) : SocketState × List SockEvent × List String :=
  let a := syncInBuffer s
  let b := syncOutBuffer a.1
  ({ b.1 with retryCall := false, prevTimeStamp := now }, a.2 ++ b.2.1, b.2.2)

/-- `resume` from src lines 420-423: when paused, run a buffer
synchronisation pass; in any case clear the paused flag. -/
def resume (s : SocketState) (now : ℚ) : SocketState × List SockEvent × List String :=
  if s.paused then
    let r := sync s now
    ({ r.1 with paused := false }, r.2.1, r.2.2)
  else ({ s with paused := false }, [], [])

/-- The guard of `send` (src line 434): the transport reports OPEN and the
socket is not paused. -/
def wsOpenUnpaused (s : SocketState) : Bool :=
  decide (s.ws.map WS.readyState = some wsOPEN) && !s.paused

/-- `send` from src lines 431-446: with an OPEN unpaused transport, store
the parser, flush the outbound queue, then write the parsed payload (when
truthy) and emit `send`; otherwise enqueue the raw payload only when
buffering is enabled, the payload is truthy and the queue is below `max`,
silently dropping it otherwise. -/
def send (s : SocketState) (data : String) (parser : String → String := stringify) :
    SocketState × List SockEvent × List String :=
  if wsOpenUnpaused s then
    let r := syncOutBuffer { s with parser := parser }
    if data ≠ "" then
      (r.1, r.2.1 ++ [SockEvent.sendEv], r.2.2 ++ [parser data])
    else r
  else
    match s.opts.buffer with
    | some bo =>
        if data ≠ "" ∧ s.outBuffer.length < bo.max then
          ({ s with outBuffer := s.outBuffer ++ [data] }, [], [])
        else (s, [], [])
    | none => (s, [], [])

/-- `startBeat` from src lines 451-469: only when active with a transport
and no single ping outstanding — mark the heartbeat running, arm the
heartbeat interval, and run `sendPing` once immediately (emitting `ping`,
writing the ping literal and arming the ping timeout). -/
def startBeat (s : SocketState) : SocketState × List SockEvent × List String :=
  if active s && s.ws.isSome && !s.pingStart then
    let s1 := { s with heartBeatRunning := true }
    let s2 := clearTimer s1 TimerName.heartbeat
    let s3 := { s2 with timers := s2.timers.set TimerName.heartbeat (some s2.opts.ping.heartbeat) }
    let s4 := { s3 with timers := s3.timers.set TimerName.ping (some s3.opts.ping.timeout) }
    (s4, [SockEvent.pingEv], [PingContent])
  else (s, [], [])

/-- `stopBeat` from src lines 474-477: cancel the heartbeat interval and
clear the running flag. -/
def stopBeat (s : SocketState) : SocketState :=
  { clearTimer s TimerName.heartbeat with heartBeatRunning := false }

end Socket

/-! ## Concrete fixtures (mirroring the repository's test setup) -/

/-- An open transport handle as produced by a successful connection to the
test server. -/
def testWS : WS :=
  { readyState := wsOPEN, url := "ws://localhost:50123/", protocol := "", extensions := "" }

/-- A connected, unpaused socket with default options, a live transport and
a live cancellation token. -/
def connectedState : SocketState :=
  { Socket.init DefaultOptions with ws := some testWS, connected := true, controller := true }

/-- Manual-disconnect fixture: connected socket with accumulated uptime 4050
and no reconnect cycle in progress. -/
def c4State : SocketState := { connectedState with upTime := 4050 }

/-- Fixture: connected socket with the heartbeat loop running. -/
def beatingState : SocketState := { connectedState with heartBeatRunning := true }

/-- Fixture: the connected socket after `pause()`. -/
def pausedState : SocketState := Socket.pause connectedState

/-- Fixture: the connected socket after an explicit manual `disconnect()`,
which drops the transport and the cancellation token. -/
def afterDisconnect : SocketState := Socket.disconnect connectedState

/-- Retry policy granting five attempts, otherwise the documented defaults
(startDelay 1000, delayFactor 1.5, maxDelay 30000). -/
def retryFive : RetryConfig := { DefaultOptions.retry with amount := 5 }

/-- Fixture: connected socket that is eligible for a reconnect (no pending
retry timer, zero retries against a budget of five). -/
def c3State : SocketState :=
  { Socket.init { DefaultOptions with retry := retryFive } with
    ws := some testWS, connected := true, controller := true }

/-- The worked spec example configuration: startDelay 100, delayFactor 1,
maxDelay 100 (and one allowed retry). -/
def retryExample : RetryConfig :=
  { amount := 1, delayFactor := 1, maxDelay := 100, minUpTime := 0,
    onAbort := false, startDelay := 100 }

/-- Fixture: connected, reconnect-eligible socket under `retryExample`. -/
def c3ExampleState : SocketState :=
  { Socket.init { DefaultOptions with retry := retryExample } with
    ws := some testWS, connected := true, controller := true }

/-- Fixture: active connected socket with a ping outstanding (ping flag set
and its timeout armed), awaiting the pong. -/
def outstandingPingState : SocketState :=
  { connectedState with pingStart := true,
                        timers := { noTimers with ping := some 5000 } }

/-- A sequence of `send` calls, threading only the state. -/
def sendAll (s : SocketState) (l : List String) (p : String → String := stringify) :
    SocketState :=
  l.foldl (fun st d => (Socket.send st d p).1) s

/-- Options with a 10-slot outbound buffer, as in the repository's
drop-newest test. -/
def c8Opts : SocketConfig := { DefaultOptions with buffer := some { max := 10, min := 0 } }

/-- Fixture: connected socket with the 10-slot buffer, currently paused. -/
def c8PausedState : SocketState :=
  { Socket.init c8Opts with ws := some testWS, connected := true, controller := true,
                            paused := true }

/-- The state after sending 100 distinct payloads while paused. -/
def c8AfterSends : SocketState :=
  sendAll c8PausedState ((List.range 100).map (fun i => Nat.repr (i + 1)))

/-! ## Helper lemmas -/

theorem syncInBuffer_fields (s : SocketState) :
    (Socket.syncInBuffer s).1.heartBeatRunning = s.heartBeatRunning ∧
    (Socket.syncInBuffer s).1.upTime = s.upTime ∧
    (Socket.syncInBuffer s).1.ws = s.ws ∧
    (Socket.syncInBuffer s).1.opts = s.opts ∧
    (Socket.syncInBuffer s).1.outBuffer = s.outBuffer ∧
    (Socket.syncInBuffer s).1.paused = s.paused ∧
    (Socket.syncInBuffer s).1.parser = s.parser := by
  unfold Socket.syncInBuffer
  cases hb : s.opts.buffer <;> simp [hb] <;> split <;> simp

theorem syncOutBuffer_fields (s : SocketState) :
    (Socket.syncOutBuffer s).1.heartBeatRunning = s.heartBeatRunning ∧
    (Socket.syncOutBuffer s).1.upTime = s.upTime ∧
    (Socket.syncOutBuffer s).1.ws = s.ws ∧
    (Socket.syncOutBuffer s).1.opts = s.opts ∧
    (Socket.syncOutBuffer s).1.paused = s.paused := by
  unfold Socket.syncOutBuffer
  cases hw : s.ws <;> cases hb : s.opts.buffer <;> simp [hw, hb] <;> split <;> simp [hw]

theorem sync_heartBeat (s : SocketState) (now : ℚ) :
    (Socket.sync s now).1.heartBeatRunning = s.heartBeatRunning := by
  unfold Socket.sync
  simp only []
  rw [(syncOutBuffer_fields (Socket.syncInBuffer s).1).1, (syncInBuffer_fields s).1]

theorem resume_heartBeat (s : SocketState) (now : ℚ) :
    (Socket.resume s now).1.heartBeatRunning = s.heartBeatRunning := by
  unfold Socket.resume
  split
  · simp only []
    rw [sync_heartBeat]
  · simp


theorem ping_heartBeat (s : SocketState) :
    (Socket.ping s).1.heartBeatRunning = s.heartBeatRunning := by
  unfold Socket.ping
  dsimp only
  split <;> simp [Socket.clearTimer]

theorem send_heartBeat (s : SocketState) (d : String) (p : String → String) :
    (Socket.send s d p).1.heartBeatRunning = s.heartBeatRunning := by
  unfold Socket.send
  split
  · simp only []
    split
    · simp [(syncOutBuffer_fields { s with parser := p }).1]
    · simp [(syncOutBuffer_fields { s with parser := p }).1]
  · cases hb : s.opts.buffer <;> simp [hb]
    split <;> simp

theorem reconnect_heartBeat (s : SocketState) :
    (Socket.reconnect s).heartBeatRunning = s.heartBeatRunning := by
  unfold Socket.reconnect
  dsimp only
  split <;> simp

theorem abort_heartBeat (s : SocketState) (r : AbortReason) :
    (Socket.abort s r).1.heartBeatRunning = s.heartBeatRunning := by
  unfold Socket.abort
  cases hc : s.controller <;> simp [hc] <;> split <;>
    simp [reconnect_heartBeat]

theorem cleanup_heartBeat (s : SocketState) :
    (Socket.cleanup s).heartBeatRunning = s.heartBeatRunning := by
  unfold Socket.cleanup Socket.flushTimers
  dsimp only
  split <;> simp

theorem disconnect_heartBeat (s : SocketState) :
    (Socket.disconnect s).heartBeatRunning = s.heartBeatRunning := by
  unfold Socket.disconnect
  cases hw : s.ws <;> simp [hw, cleanup_heartBeat]

theorem startBeat_heartBeat (s : SocketState) (h : s.heartBeatRunning = true) :
    (Socket.startBeat s).1.heartBeatRunning = true := by
  unfold Socket.startBeat
  split <;> simp [Socket.clearTimer, Timers.set, h]

/-! ## Claim theorems -/

/-- C9: whenever no underlying transport handle exists, the read-only
observables take their fixed defaults: readyState is the CLOSED constant
and extensions, protocol and url are the empty string. -/
theorem c9_default_getters (s : SocketState) (h : s.ws = none) :
    Socket.readyState s = wsCLOSED ∧ Socket.extensions s = "" ∧
    Socket.protocol s = "" ∧ Socket.url s = "" := by
  simp [Socket.readyState, Socket.extensions, Socket.protocol, Socket.url, h]

/-- C9 witness: the constructor-initial state has no transport and all four
getters take their defaults there. -/
theorem c9_default_getters_witness :
    (Socket.init DefaultOptions).ws = none ∧
    (Socket.readyState (Socket.init DefaultOptions) = wsCLOSED ∧
     Socket.extensions (Socket.init DefaultOptions) = "" ∧
     Socket.protocol (Socket.init DefaultOptions) = "" ∧
     Socket.url (Socket.init DefaultOptions) = "") :=
  ⟨rfl, c9_default_getters (Socket.init DefaultOptions) rfl⟩

/-- C4 amended: the accumulated uptime is never reset by disconnect cleanup.
A manually initiated disconnect leaves the accumulated total unchanged (it
only stops advancing), and an automatic reconnect-driven disconnect likewise
never resets it. -/
theorem c4_uptime_never_reset (s : SocketState) :
    (Socket.disconnect s).upTime = s.upTime ∧ (Socket.cleanup s).upTime = s.upTime := by
  constructor
  · unfold Socket.disconnect
    cases hw : s.ws <;> simp [hw, Socket.cleanup, Socket.flushTimers]
    split <;> simp
  · unfold Socket.cleanup Socket.flushTimers
    dsimp only
    split <;> simp

/-- C4 counterexample: a manually initiated disconnect (retryCall is false,
transport present) leaves the accumulated uptime at 4050 instead of
resetting it to zero as the claim demands. -/
theorem c4_uptime_counterexample :
    c4State.retryCall = false ∧ c4State.ws = some testWS ∧
    (Socket.disconnect c4State).upTime = 4050 ∧ ((4050 : ℚ) ≠ 0) := by
  refine ⟨rfl, rfl, rfl, by norm_num⟩

/-- C6: every disconnect with an existing transport flushes all named
timers; it clears both buffers and resets the retry counter exactly when
the cleanup was not triggered by an automatic reconnect cycle, and
preserves them (dropping the reconnection flag) otherwise. -/
theorem c6_disconnect_cleanup (s : SocketState) (w : WS) (h : s.ws = some w) :
    (Socket.disconnect s).timers = noTimers ∧
    (Socket.disconnect s).outBuffer = (if s.retryCall then s.outBuffer else []) ∧
    (Socket.disconnect s).inBuffer = (if s.retryCall then s.inBuffer else []) ∧
    (Socket.disconnect s).retries = (if s.retryCall then s.retries else 0) ∧
    (Socket.disconnect s).retryCall = false := by
  unfold Socket.disconnect
  rw [h]
  simp only []
  cases hr : s.retryCall <;> simp [Socket.cleanup, Socket.flushTimers, hr]

/-- C6 witness: instantiation at the connected default-configuration
fixture. -/
theorem c6_disconnect_cleanup_witness :
    (Socket.disconnect connectedState).timers = noTimers ∧
    (Socket.disconnect connectedState).outBuffer =
      (if connectedState.retryCall then connectedState.outBuffer else []) ∧
    (Socket.disconnect connectedState).inBuffer =
      (if connectedState.retryCall then connectedState.inBuffer else []) ∧
    (Socket.disconnect connectedState).retries =
      (if connectedState.retryCall then connectedState.retries else 0) ∧
    (Socket.disconnect connectedState).retryCall = false :=
  c6_disconnect_cleanup connectedState testWS rfl

/-- C10: pause cancels the ping and heartbeat timers but does not clear the
heartbeat-running flag — `beating` still answers true after `pause` — and of
the socket's operations only `stopBeat` resets the flag to false. -/
theorem c10_pause_keeps_beating (s : SocketState) (now : ℚ) (d : String)
    (p : String → String) (r : AbortReason) :
    (Socket.pause s).timers.ping = none ∧
    (Socket.pause s).timers.heartbeat = none ∧
    Socket.beating (Socket.pause s) = Socket.beating s ∧
    (Socket.stopBeat s).heartBeatRunning = false ∧
    (s.heartBeatRunning = true →
      (Socket.pause s).heartBeatRunning = true ∧
      (Socket.resume s now).1.heartBeatRunning = true ∧
      (Socket.ping s).1.heartBeatRunning = true ∧
      (Socket.send s d p).1.heartBeatRunning = true ∧
      (Socket.startBeat s).1.heartBeatRunning = true ∧
      (Socket.abort s r).1.heartBeatRunning = true ∧
      (Socket.disconnect s).heartBeatRunning = true ∧
      (Socket.cleanup s).heartBeatRunning = true ∧
      (Socket.reconnect s).heartBeatRunning = true) := by
  refine ⟨by simp [Socket.pause, Socket.clearTimer, Timers.set],
          by simp [Socket.pause, Socket.clearTimer, Timers.set],
          by simp [Socket.pause, Socket.clearTimer, Socket.beating],
          by simp [Socket.stopBeat, Socket.clearTimer],
          fun h => ⟨by simp [Socket.pause, Socket.clearTimer, h],
                    by rw [resume_heartBeat]; exact h,
                    by rw [ping_heartBeat]; exact h,
                    by rw [send_heartBeat]; exact h,
                    startBeat_heartBeat s h,
                    by rw [abort_heartBeat]; exact h,
                    by rw [disconnect_heartBeat]; exact h,
                    by rw [cleanup_heartBeat]; exact h,
                    by rw [reconnect_heartBeat]; exact h⟩⟩

/-- C10 witness: with the heartbeat running, pause leaves `beating` true,
stopBeat clears it, and reconnect leaves it untouched. -/
theorem c10_pause_keeps_beating_witness :
    Socket.beating (Socket.pause beatingState) = true ∧
    (Socket.stopBeat beatingState).heartBeatRunning = false ∧
    (Socket.reconnect beatingState).heartBeatRunning = true := by
  have h := c10_pause_keeps_beating beatingState 0 "m" stringify AbortReason.noReason
  have h5 := h.2.2.2.2 rfl
  exact ⟨by rw [h.2.2.1]; rfl, h.2.2.2.1, h5.2.2.2.2.2.2.2.2⟩

/-- C1 (code behaviour, contradicting the claim and the repository's own
test "should not abort on pause" and CHANGELOG 1.1.0): the `abort` in
src/src/index.ts has no paused / already-disconnected guard, so calling it
while paused, and again after a manual disconnect has dropped the transport
and the token, still emits an `abort` event each time. -/
theorem c1_abort_emits_despite_guard :
    pausedState.paused = true ∧
    afterDisconnect.ws = none ∧ afterDisconnect.controller = false ∧
    (Socket.abort pausedState AbortReason.noReason).2.1 = [SockEvent.abortEv] ∧
    (Socket.abort afterDisconnect AbortReason.noReason).2.1 = [SockEvent.abortEv] :=
  ⟨rfl, rfl, rfl, rfl, rfl⟩

/-- C2 (code behaviour, contradicting the claim, index.d.ts line 139 and
the repository's test "sends an abort signal with payload to the server"):
the `abort` in src/src/index.ts accepts no payload argument and writes
nothing to the transport — in particular no abort control message — even
with `onAbort` unset and the transport open. -/
theorem c2_abort_sends_no_payload :
    (∀ (s : SocketState) (r : AbortReason), (Socket.abort s r).2.2 = []) ∧
    connectedState.ws = some testWS ∧ testWS.readyState = wsOPEN ∧
    (Socket.abort connectedState (AbortReason.str "Test")).2.2 = [] := by
  refine ⟨fun s r => ?_, rfl, rfl, rfl⟩
  unfold Socket.abort
  dsimp only
  split <;> split <;> rfl

theorem reconnect_not_eligible (s : SocketState)
    (h : s.timers.retry.isSome = true ∨ s.retries ≥ s.opts.retry.amount) :
    Socket.reconnect s = s := by
  unfold Socket.reconnect
  dsimp only
  rw [if_pos]
  rcases h with h | h
  · simp [h]
  · simp [h]

theorem reconnect_eligible_fields (s : SocketState)
    (h1 : s.timers.retry = none) (h2 : s.retries < s.opts.retry.amount) :
    (Socket.reconnect s).retries = s.retries + 1 ∧
    (Socket.reconnect s).timers.retry =
      some (min (s.opts.retry.startDelay *
                  ((((s.retries + 1 : ℕ) : ℚ) + 1) * s.opts.retry.delayFactor))
                s.opts.retry.maxDelay) ∧
    (Socket.reconnect s).retryCall = true := by
  unfold Socket.reconnect
  dsimp only
  rw [if_neg]
  · exact ⟨rfl, rfl, rfl⟩
  · simp only [h1, Option.isSome_none, Bool.false_or, Bool.not_eq_true,
               decide_eq_false_iff_not]
    omega

/-- C3 counterexample: at a reconnect-eligible socket with the documented
default backoff (startDelay 1000, delayFactor 1.5, maxDelay 30000), the
armed delay is 3000, while the claim's formula
min(startDelay * (attemptNumber * delayFactor), maxDelay) with
attemptNumber = 1 (the count right after incrementing) yields 1500. -/
theorem c3_delay_counterexample :
    c3State.timers.retry = none ∧
    c3State.retries = 0 ∧ c3State.opts.retry.amount = 5 ∧
    (Socket.reconnect c3State).retries = 1 ∧
    (Socket.reconnect c3State).timers.retry = some 3000 ∧
    min (c3State.opts.retry.startDelay * ((1 : ℚ) * c3State.opts.retry.delayFactor))
        c3State.opts.retry.maxDelay = 1500 ∧
    (3000 : ℚ) ≠ 1500 := by
  refine ⟨rfl, rfl, rfl, rfl, ?_, ?_, by norm_num⟩
  · have h := (reconnect_eligible_fields c3State rfl (by decide)).2.1
    rw [h]
    norm_num [c3State, retryFive, DefaultOptions, Socket.init]
  · norm_num [c3State, retryFive, DefaultOptions, Socket.init]

/-- C3 amended: for every eligible reconnect, the armed delay equals
min(startDelay * ((attemptNumber + 1) * delayFactor), maxDelay), where
attemptNumber is the retry count immediately after incrementing (the source
multiplies by the already-incremented count plus one); the claim's worked
example still holds: with startDelay 100, delayFactor 1, maxDelay 100 the
first attempt's delay is 100, because min(200, 100) = 100. -/
theorem c3_delay_amended (s : SocketState)
    (h1 : s.timers.retry = none) (h2 : s.retries < s.opts.retry.amount) :
    ((Socket.reconnect s).retries = s.retries + 1 ∧
     (Socket.reconnect s).timers.retry =
       some (min (s.opts.retry.startDelay *
                   ((((s.retries + 1 : ℕ) : ℚ) + 1) * s.opts.retry.delayFactor))
                 s.opts.retry.maxDelay)) ∧
    (Socket.reconnect c3ExampleState).timers.retry = some 100 := by
  refine ⟨⟨(reconnect_eligible_fields s h1 h2).1, (reconnect_eligible_fields s h1 h2).2.1⟩, ?_⟩
  have h := (reconnect_eligible_fields c3ExampleState rfl (by decide)).2.1
  rw [h]
  norm_num [c3ExampleState, retryExample, DefaultOptions, Socket.init]

/-- C3 witness: the amended delay law instantiated at the eligible
five-retry fixture, where the first armed delay is 3000. -/
theorem c3_delay_amended_witness :
    (Socket.reconnect c3State).retries = c3State.retries + 1 ∧
    (Socket.reconnect c3State).timers.retry =
      some (min (c3State.opts.retry.startDelay *
                  ((((c3State.retries + 1 : ℕ) : ℚ) + 1) * c3State.opts.retry.delayFactor))
                c3State.opts.retry.maxDelay) :=
  (c3_delay_amended c3State rfl (by decide)).1

/-- C5 counterexample: in an active connected state with a ping already
outstanding (flag set, timeout armed), calling `ping()` is not a no-op: it
emits another `ping` event and writes the ping literal again. -/
theorem c5_ping_counterexample :
    Socket.active outstandingPingState = true ∧
    outstandingPingState.pingStart = true ∧
    outstandingPingState.timers.ping = some 5000 ∧
    (Socket.ping outstandingPingState).2.1 = [SockEvent.pingEv] ∧
    (Socket.ping outstandingPingState).2.2 = [PingContent] :=
  ⟨rfl, rfl, rfl, rfl, rfl⟩

/-- C5 amended: `ping()` always first cancels any pending ping timeout; it
then sends the ping payload, emits `ping` and arms the timeout exactly when
the connection is active and a transport exists — even while a previous
ping is still awaiting its pong, in which case the earlier timeout is
cancelled and a fresh ping goes out; in inactive states nothing beyond the
timer cancellation happens. -/
theorem c5_ping_amended (s : SocketState) :
    ((Socket.ping s).2.1 =
       if Socket.active s && s.ws.isSome then [SockEvent.pingEv] else []) ∧
    ((Socket.ping s).2.2 =
       if Socket.active s && s.ws.isSome then [PingContent] else []) ∧
    ((Socket.active s && s.ws.isSome) = false →
       (Socket.ping s).1 = Socket.clearTimer s TimerName.ping) ∧
    ((Socket.active s && s.ws.isSome) = true →
       (Socket.ping s).1.pingStart = true ∧
       (Socket.ping s).1.timers.ping = some s.opts.ping.timeout) := by
  have hact : Socket.active (Socket.clearTimer s TimerName.ping) = Socket.active s := rfl
  have hws : (Socket.clearTimer s TimerName.ping).ws = s.ws := rfl
  unfold Socket.ping
  dsimp only
  rw [hact, hws]
  cases hcond : (Socket.active s && s.ws.isSome) <;>
    simp [hcond, Socket.clearTimer, Timers.set]

/-- C5 witness: the amended characterisation applied to the
outstanding-ping fixture, where the second ping call marks a fresh ping and
re-arms the timeout. -/
theorem c5_ping_amended_witness :
    (Socket.ping outstandingPingState).1.pingStart = true ∧
    (Socket.ping outstandingPingState).1.timers.ping = some 5000 := by
  have h := (c5_ping_amended outstandingPingState).2.2.2 rfl
  exact ⟨h.1, h.2⟩

/-- C7: `reconnect` is a no-op when a retry timer is pending or the retry
budget is reached; from an eligible state, any number of further
synchronous calls changes nothing beyond the first, so the retry count
rises by exactly one and exactly one retry timer is armed. -/
theorem c7_reconnect_single_shot (s : SocketState) :
    ((s.timers.retry.isSome = true ∨ s.retries ≥ s.opts.retry.amount) →
        Socket.reconnect s = s) ∧
    (s.timers.retry = none → s.retries < s.opts.retry.amount →
        (Socket.reconnect s).retries = s.retries + 1 ∧
        (Socket.reconnect s).timers.retry.isSome = true ∧
        (∀ n : ℕ, Socket.reconnect^[n + 1] s = Socket.reconnect s)) := by
  refine ⟨reconnect_not_eligible s, fun h1 h2 => ?_⟩
  obtain ⟨hr, ht, _⟩ := reconnect_eligible_fields s h1 h2
  have hsome : (Socket.reconnect s).timers.retry.isSome = true := by
    rw [ht]; rfl
  have hfix : Socket.reconnect (Socket.reconnect s) = Socket.reconnect s :=
    reconnect_not_eligible _ (Or.inl hsome)
  refine ⟨hr, hsome, ?_⟩
  intro n
  induction n with
  | zero => simp
  | succ n ih => rw [Function.iterate_succ_apply', ih, hfix]

/-- C7 witness: one hundred synchronous reconnect calls on the eligible
fixture behave like a single one, which bumps the count to one. -/
theorem c7_reconnect_single_shot_witness :
    Socket.reconnect^[100] c3State = Socket.reconnect c3State ∧
    (Socket.reconnect c3State).retries = c3State.retries + 1 := by
  have h := (c7_reconnect_single_shot c3State).2 rfl (by decide)
  exact ⟨h.2.2 99, h.1⟩

theorem syncOutBuffer_out (s : SocketState) :
    (Socket.syncOutBuffer s).1.outBuffer = s.outBuffer ∨
    (Socket.syncOutBuffer s).1.outBuffer = [] := by
  unfold Socket.syncOutBuffer
  cases hw : s.ws <;> cases hb : s.opts.buffer <;> simp [hw, hb]
  split <;> simp

theorem send_opts (s : SocketState) (d : String) (p : String → String) :
    (Socket.send s d p).1.opts = s.opts := by
  unfold Socket.send
  dsimp only
  split
  · split
    · exact (syncOutBuffer_fields { s with parser := p }).2.2.2.1
    · exact (syncOutBuffer_fields { s with parser := p }).2.2.2.1
  · cases hb : s.opts.buffer <;> simp [hb]
    split <;> simp

theorem send_bound (s : SocketState) (d : String) (p : String → String)
    (bo : BufferConfig) (hb : s.opts.buffer = some bo)
    (hlen : s.outBuffer.length ≤ bo.max) :
    (Socket.send s d p).1.outBuffer.length ≤ bo.max := by
  unfold Socket.send
  dsimp only
  split
  · rcases syncOutBuffer_out { s with parser := p } with h | h
    · split
      · dsimp only; rw [h]; exact hlen
      · rw [h]; exact hlen
    · split
      · dsimp only; rw [h]; simp
      · rw [h]; simp
  · rw [hb]
    dsimp only
    split
    · rename_i hcond
      simp only [List.length_append, List.length_cons, List.length_nil]
      omega
    · exact hlen

theorem sendAll_bound (l : List String) (s : SocketState) (p : String → String)
    (bo : BufferConfig) (hb : s.opts.buffer = some bo)
    (hlen : s.outBuffer.length ≤ bo.max) :
    (sendAll s l p).outBuffer.length ≤ bo.max := by
  induction l generalizing s with
  | nil => exact hlen
  | cons d l ih =>
      have hb2 : (Socket.send s d p).1.opts.buffer = some bo := by
        rw [send_opts]; exact hb
      exact ih (Socket.send s d p).1 hb2 (send_bound s d p bo hb hlen)

set_option maxRecDepth 4000 in
/-- C8: with buffering enabled, a sequence of `send` calls never pushes the
outbound queue past `max`; while the transport is absent, not open or
paused, a truthy payload is appended only when the queue is below `max` and
is silently dropped otherwise (the queue, hence its oldest entries, is left
untouched); concretely, 100 sends while paused with max = 10 leave 10
queued items, and resuming writes exactly those 10 to the transport. -/
theorem c8_send_buffer_discipline (s : SocketState) (d : String)
    (p : String → String) (bo : BufferConfig) (l : List String)
    (hb : s.opts.buffer = some bo) :
    (s.outBuffer.length ≤ bo.max → (sendAll s l p).outBuffer.length ≤ bo.max) ∧
    (Socket.wsOpenUnpaused s = false → d ≠ "" → s.outBuffer.length < bo.max →
        (Socket.send s d p).1.outBuffer = s.outBuffer ++ [d]) ∧
    (Socket.wsOpenUnpaused s = false → s.outBuffer.length ≥ bo.max →
        (Socket.send s d p).1 = s) ∧
    c8AfterSends.outBuffer.length = 10 ∧
    (Socket.resume c8AfterSends 0).2.2.length = 10 := by
  refine ⟨fun h => sendAll_bound l s p bo hb h, fun hw hd hlt => ?_,
          fun hw hge => ?_, by decide, by decide⟩
  · unfold Socket.send
    rw [hw]
    simp only [Bool.false_eq_true, if_false]
    rw [hb]
    dsimp only
    rw [if_pos ⟨hd, hlt⟩]
  · unfold Socket.send
    rw [hw]
    simp only [Bool.false_eq_true, if_false]
    rw [hb]
    dsimp only
    rw [if_neg]
    intro hcond
    omega

/-- C8 witness: on the paused fixture a single send stays within the bound
and appends the payload at the tail of the queue. -/
theorem c8_send_buffer_discipline_witness :
    (sendAll c8PausedState ["a"] stringify).outBuffer.length ≤ 10 ∧
    (Socket.send c8PausedState "a" stringify).1.outBuffer =
      c8PausedState.outBuffer ++ ["a"] := by
  have h := c8_send_buffer_discipline c8PausedState "a" stringify
    { max := 10, min := 0 } ["a"] rfl
  exact ⟨h.1 (by decide), h.2.1 (by decide) (by decide) (by decide)⟩
